import Mathlib

/-!
Verification of the roster & session state engine of the Telegram football
team bot (`src/bot.py`).

The embedding mirrors the Python source:
* `init_data`, `is_admin`, `create_teams` embed the module-level functions;
* each command handler (`addme_command`, `addadmin_command`,
  `removeadmin_command`, `begin_command`, `end_command`, `reset_command`,
  `handle_message`) is embedded as a pure function from the persisted
  document (`BotData`) to the updated document paired with the reply sent.
  A handler that returns without calling `save_data` leaves the persisted
  document unchanged, so such branches return the input state.
* `random.shuffle` inside `create_teams` is modelled by an explicit
  `shuffle` function parameter; theorems that need it assume the shuffle
  produces a permutation of its input.
* Telegram user and chat identifiers are modelled as `Int`; the `players`
  dictionary (keyed by `str(user_id)` in the source) is an association
  list keyed by the identifier.
-/

namespace Bot

/-- A record of the `players` table: `{name, username}`. -/
structure Player where
  name : String
  username : Option String
deriving DecidableEq

/-- The `session` object: `{active, participants, chat_id}`. -/
structure Session where
  active : Bool
  participants : List Int
  chat_id : Option Int
deriving DecidableEq

/-- The whole persisted document (`players.json`). -/
structure BotData where
  admins : List Int
  players : List (Int × Player)
  session : Session
deriving DecidableEq

/-- `PLAYERS_PER_TEAM = 6`. -/
def PLAYERS_PER_TEAM : Nat := 6

/-- `init_data()`: empty admins, empty players,
`{active: False, participants: [], chat_id: None}`. -/
def init_data : BotData :=
  { admins := []
    players := []
    session := { active := false, participants := [], chat_id := none } }

/-- `is_admin(user_id, data)`: membership in `data["admins"]`. -/
def is_admin (user_id : Int) (data : BotData) : Bool :=
  data.admins.contains user_id

/-- The chunking loop of `create_teams`:
`for i in range(0, num_players, 6): teams.append(shuffled[i:i+6])`. -/
def chunk6 {α : Type} : List α → List (List α)
  | [] => []
  | x :: xs => ((x :: xs).take PLAYERS_PER_TEAM) :: chunk6 ((x :: xs).drop PLAYERS_PER_TEAM)
termination_by l => l.length
decreasing_by
  simp [PLAYERS_PER_TEAM]
  omega

/-- `create_teams(players)`: returns `[]` on the empty roster, otherwise
shuffles a copy of the roster and slices it into consecutive chunks of 6.
The random shuffle is the explicit `shuffle` argument. -/
def create_teams {α : Type} (shuffle : List α → List α) (players : List α) :
    List (List α) :=
  if players.length = 0 then []
  else chunk6 (shuffle players)

/-- The replies the handlers send (only the branch identity matters;
the success reply of `/end` carries the generated teams). -/
inductive Reply where
  | firstAdmin
  | alreadyAdmin
  | onlyAdminsCanAdd
  | notAuthorized
  | adminAdded
  | alreadyAdminInfo
  | replyHintAdd
  | adminRemoved
  | notAnAdmin
  | replyHintRemove
  | selectionStarted
  | noActiveSession
  | emptyRoster
  | teams (ts : List (List Player))
  | sessionReset
  | scopeIgnored
  | noActiveSelection
  | joined
  | alreadyIn
  | left
  | wasNotIn
  | noReply
deriving DecidableEq

/-- `addme_command`: the first caller becomes admin; otherwise the state
is left unsaved (unchanged). -/
def addme_command (user_id : Int) (data : BotData) : BotData × Reply :=
  if data.admins.length = 0 then
    ({ data with admins := data.admins ++ [user_id] }, .firstAdmin)
  else if is_admin user_id data then
    (data, .alreadyAdmin)
  else
    (data, .onlyAdminsCanAdd)

/-- `addadmin_command`: an admin replying to a message promotes its sender;
`reply_to` is the replied-to user, `none` when the command is not a reply. -/
def addadmin_command (user_id : Int) (reply_to : Option Int) (data : BotData) :
    BotData × Reply :=
  if ¬ is_admin user_id data then
    (data, .notAuthorized)
  else
    match reply_to with
    | some new_admin_id =>
        if ¬ data.admins.contains new_admin_id then
          ({ data with admins := data.admins ++ [new_admin_id] }, .adminAdded)
        else
          (data, .alreadyAdminInfo)
    | none => (data, .replyHintAdd)

/-- `removeadmin_command`: an admin replying to a message demotes its
sender (`list.remove` drops the first occurrence). -/
def removeadmin_command (user_id : Int) (reply_to : Option Int)
    (data : BotData) : BotData × Reply :=
  if ¬ is_admin user_id data then
    (data, .notAuthorized)
  else
    match reply_to with
    | some remove_admin_id =>
        if data.admins.contains remove_admin_id then
          ({ data with admins := data.admins.erase remove_admin_id }, .adminRemoved)
        else
          (data, .notAnAdmin)
    | none => (data, .replyHintRemove)

/-- `begin_command`: admin only; sets `active = True`, clears
`participants`, binds `chat_id` to the invoking chat. -/
def begin_command (user_id chat_id : Int) (data : BotData) : BotData × Reply :=
  if ¬ is_admin user_id data then
    (data, .notAuthorized)
  else
    ({ data with
        session := { active := true, participants := [], chat_id := some chat_id } },
      .selectionStarted)

/-- The player-list loop of `end_command`:
`data["players"].get(str(user_id), {"name": "Unknown", "username": None})`
for each participant, in order. -/
def build_player_list (data : BotData) : List Player :=
  data.session.participants.map fun uid =>
    (data.players.lookup uid).getD { name := "Unknown", username := none }

/-- `end_command`: admin only; errors on an inactive session or an empty
participant list without saving; otherwise builds the player list, creates
teams, replies with them and saves `active = False` (participants and
`chat_id` are not touched). -/
def end_command (user_id : Int) (shuffle : List Player → List Player)
    (data : BotData) : BotData × Reply :=
  if ¬ is_admin user_id data then
    (data, .notAuthorized)
  else if ¬ data.session.active then
    (data, .noActiveSession)
  else if data.session.participants = [] then
    (data, .emptyRoster)
  else
    ({ data with session := { data.session with active := false } },
      .teams (create_teams shuffle (build_player_list data)))

/-- `reset_command`: admin only; sets `active = False` and clears
`participants` (`chat_id` is not touched). -/
def reset_command (user_id : Int) (data : BotData) : BotData × Reply :=
  if ¬ is_admin user_id data then
    (data, .notAuthorized)
  else
    ({ data with
        session := { data.session with active := false, participants := [] } },
      .sessionReset)

/-- `handle_message`: processes the lower-cased, stripped message text.
Returns early (no mutation) when a session is active in a different chat;
`"in"` upserts the player record and appends the caller to participants if
absent; `"out"` removes the caller if present.  Branches that do not reach
`save_data` leave the persisted document unchanged. -/
def handle_message (user_id : Int) (user_name : String)
    (username : Option String) (chat_id : Int) (message_text : String)
    (data : BotData) : BotData × Reply :=
  if data.session.active ∧ data.session.chat_id ≠ some chat_id then
    (data, .scopeIgnored)
  else if message_text = "in" then
    if ¬ data.session.active then
      (data, .noActiveSelection)
    else if user_id ∈ data.session.participants then
      (data, .alreadyIn)
    else
      let players' :=
        if (data.players.lookup user_id).isSome then data.players
        else data.players ++ [(user_id, { name := user_name, username := username })]
      ({ data with
          players := players'
          session := { data.session with
            participants := data.session.participants ++ [user_id] } },
        .joined)
  else if message_text = "out" then
    if ¬ data.session.active then
      (data, .noActiveSelection)
    else if user_id ∈ data.session.participants then
      ({ data with
          session := { data.session with
            participants := data.session.participants.erase user_id } },
        .left)
    else
      (data, .wasNotIn)
  else
    (data, .noReply)

/-- States reachable from `init_data` by the bot's mutating operations.
The shuffle used by `/end` is universally quantified: it never affects the
stored state. -/
inductive Reachable : BotData → Prop where
  | init : Reachable init_data
  | addme (uid : Int) {d : BotData} :
      Reachable d → Reachable (addme_command uid d).1
  | addadmin (uid : Int) (reply_to : Option Int) {d : BotData} :
      Reachable d → Reachable (addadmin_command uid reply_to d).1
  | removeadmin (uid : Int) (reply_to : Option Int) {d : BotData} :
      Reachable d → Reachable (removeadmin_command uid reply_to d).1
  | begin_ (uid chat : Int) {d : BotData} :
      Reachable d → Reachable (begin_command uid chat d).1
  | end_ (uid : Int) (shuffle : List Player → List Player) {d : BotData} :
      Reachable d → Reachable (end_command uid shuffle d).1
  | reset (uid : Int) {d : BotData} :
      Reachable d → Reachable (reset_command uid d).1
  | msg (uid : Int) (nm : String) (un : Option String) (chat : Int)
      (txt : String) {d : BotData} :
      Reachable d → Reachable (handle_message uid nm un chat txt d).1

/-! ### Concrete states used by witnesses and counterexamples -/

/-- A state with admin `1`, two known players and an open session in chat
`7` with participants `[2, 3]`. -/
def demoOpen : BotData :=
  { admins := [1]
    players := [(2, { name := "Ann", username := none }),
                (3, { name := "Ben", username := some "ben" })]
    session := { active := true, participants := [2, 3], chat_id := some 7 } }

/-- The state after `/addme` by user 1, `/begin` by 1 in chat 7, then
`/reset` by 1. -/
def traceReset : BotData :=
  (reset_command 1 (begin_command 1 7 (addme_command 1 init_data).1).1).1

/-- The state after `/addme` by 1, `/begin` by 1 in chat 7, then `"in"` by
user 2 — an open session in chat 7 with participant 2. -/
def tracePre : BotData :=
  (handle_message 2 "Bob" none 7 "in"
    (begin_command 1 7 (addme_command 1 init_data).1).1).1

/-- `tracePre` followed by a successful `/end` by 1. -/
def traceEnd : BotData :=
  (end_command 1 (fun l => l) tracePre).1

/-- The state after `/addme` by 1; `/begin` by 1 in chat 7; `"in"` by user
2 as "Alice"; a second `/begin` by 1; then `"in"` by the same user 2, now
named "Bob" with handle "bobby". -/
def traceRejoin : BotData :=
  (handle_message 2 "Bob" (some "bobby") 7 "in"
    (begin_command 1 7
      (handle_message 2 "Alice" none 7 "in"
        (begin_command 1 7 (addme_command 1 init_data).1).1).1).1).1

/-! ### Properties of the chunking loop -/

theorem chunk6_eq_nil_iff {α : Type} (l : List α) : chunk6 l = [] ↔ l = [] := by
  cases l <;> simp [chunk6]

theorem chunk6_cons {α : Type} (x : α) (xs : List α) :
    chunk6 (x :: xs) =
      ((x :: xs).take PLAYERS_PER_TEAM) ::
        chunk6 ((x :: xs).drop PLAYERS_PER_TEAM) := by
  rw [chunk6]

theorem chunk6_flatten {α : Type} (l : List α) : (chunk6 l).flatten = l := by
  induction l using chunk6.induct with
  | case1 => simp [chunk6]
  | case2 x xs ih =>
    rw [chunk6_cons]
    simp only [List.flatten_cons, ih, List.take_append_drop]

theorem chunk6_length {α : Type} (l : List α) :
    (chunk6 l).length = (l.length + 5) / 6 := by
  induction l using chunk6.induct with
  | case1 => simp [chunk6]
  | case2 x xs ih =>
    rw [chunk6_cons]
    simp only [List.length_cons, List.length_drop, PLAYERS_PER_TEAM] at ih ⊢
    omega

theorem chunk6_sizes {α : Type} (l : List α) (t : List α)
    (ht : t ∈ (chunk6 l).dropLast) : t.length = PLAYERS_PER_TEAM := by
  induction l using chunk6.induct with
  | case1 => simp [chunk6] at ht
  | case2 x xs ih =>
    rw [chunk6_cons] at ht
    by_cases hdrop : (x :: xs).drop PLAYERS_PER_TEAM = []
    · rw [(chunk6_eq_nil_iff _).mpr hdrop] at ht
      simp at ht
    · have hrest : chunk6 ((x :: xs).drop PLAYERS_PER_TEAM) ≠ [] := by
        intro hnil
        exact hdrop ((chunk6_eq_nil_iff _).mp hnil)
      rw [List.dropLast_cons_of_ne_nil hrest] at ht
      rcases List.mem_cons.mp ht with hhd | htl
      · have hgt : PLAYERS_PER_TEAM < (x :: xs).length := by
          by_contra hle
          exact hdrop (List.drop_eq_nil_of_le (by omega))
        subst hhd
        simp only [List.length_take]
        omega
      · exact ih htl

theorem chunk6_getLast? {α : Type} (l : List α) (t : List α)
    (ht : (chunk6 l).getLast? = some t) :
    t.length = if l.length % 6 = 0 then 6 else l.length % 6 := by
  induction l using chunk6.induct with
  | case1 => simp [chunk6] at ht
  | case2 x xs ih =>
    rw [chunk6_cons] at ht
    by_cases hdrop : (x :: xs).drop PLAYERS_PER_TEAM = []
    · rw [(chunk6_eq_nil_iff _).mpr hdrop] at ht
      have hle : (x :: xs).length ≤ PLAYERS_PER_TEAM := by
        by_contra hgt
        refine absurd hdrop (List.ne_nil_of_length_pos ?_)
        simp only [List.length_drop]
        omega
      simp only [List.getLast?_singleton, Option.some.injEq] at ht
      subst ht
      simp only [List.length_take, PLAYERS_PER_TEAM, List.length_cons] at hle ⊢
      split <;> omega
    · have hrest : chunk6 ((x :: xs).drop PLAYERS_PER_TEAM) ≠ [] := by
        intro hnil
        exact hdrop ((chunk6_eq_nil_iff _).mp hnil)
      have hgt : PLAYERS_PER_TEAM < (x :: xs).length := by
        by_contra hle
        exact hdrop (List.drop_eq_nil_of_le (by omega))
      obtain ⟨r, rs, hrr⟩ := List.exists_cons_of_ne_nil hrest
      rw [hrr, List.getLast?_cons_cons, ← hrr] at ht
      have := ih ht
      simp only [List.length_drop, List.length_cons, PLAYERS_PER_TEAM] at this hgt ⊢
      split at this <;> split <;> omega

theorem create_teams_length {α : Type} (shuffle : List α → List α)
    (l : List α) (hshuf : (shuffle l).Perm l) :
    (create_teams shuffle l).length = (l.length + 5) / 6 := by
  by_cases h : l.length = 0
  · simp [create_teams, h]
  · simp only [create_teams, h, if_false, chunk6_length, hshuf.length_eq]

/-- C1: for a roster of `N` actors and team size 6, `create_teams` (with the
random shuffle modelled as a permutation-producing function) returns
`⌈N/6⌉ = (N+5)/6` teams; every team except the last has exactly 6 members;
the last team has `N % 6` members (or 6 when `N % 6 = 0`); the concatenation
of the teams is a permutation of the roster (equal as multisets: nothing
duplicated or lost); and the empty roster yields the empty result. -/
theorem create_teams_spec {α : Type} (shuffle : List α → List α)
    (players : List α) (hshuf : (shuffle players).Perm players) :
    (create_teams shuffle players).length = (players.length + 5) / 6
    ∧ (∀ t ∈ (create_teams shuffle players).dropLast,
        t.length = PLAYERS_PER_TEAM)
    ∧ (∀ t, (create_teams shuffle players).getLast? = some t →
        t.length = if players.length % 6 = 0 then 6 else players.length % 6)
    ∧ ((create_teams shuffle players).flatten).Perm players
    ∧ (players = [] → create_teams shuffle players = []) := by
  by_cases hnil : players = []
  · subst hnil
    refine ⟨by simp [create_teams], ?_, ?_, by simp [create_teams],
      fun _ => by simp [create_teams]⟩
    · intro t ht
      simp [create_teams] at ht
    · intro t ht
      simp [create_teams] at ht
  · have hlen : players.length ≠ 0 := by
      simpa using fun h => hnil (List.length_eq_zero.mp h)
    have hsl : (shuffle players).length = players.length := hshuf.length_eq
    have hct : create_teams shuffle players = chunk6 (shuffle players) := by
      simp [create_teams, hlen]
    refine ⟨?_, ?_, ?_, ?_, fun h => absurd h hnil⟩
    · rw [hct, chunk6_length, hsl]
    · intro t ht
      rw [hct] at ht
      exact chunk6_sizes (shuffle players) t ht
    · intro t ht
      rw [hct] at ht
      rw [chunk6_getLast? (shuffle players) t ht, hsl]
    · rw [hct, chunk6_flatten]
      exact hshuf

/-- Witness for C1 at a concrete 13-element roster with `List.reverse` as
the shuffle: 3 teams, sizes 6, 6, 1. -/
theorem create_teams_spec_witness :
    (List.reverse [0, 1, 2, 3, 4, 5, 6, 7, 8, 9, 10, 11, (12 : Nat)]).Perm
        [0, 1, 2, 3, 4, 5, 6, 7, 8, 9, 10, 11, 12]
    ∧ ((create_teams List.reverse [0, 1, 2, 3, 4, 5, 6, 7, 8, 9, 10, 11, (12 : Nat)]).length
          = ([0, 1, 2, 3, 4, 5, 6, 7, 8, 9, 10, 11, (12 : Nat)].length + 5) / 6
        ∧ (∀ t ∈ (create_teams List.reverse [0, 1, 2, 3, 4, 5, 6, 7, 8, 9, 10, 11, (12 : Nat)]).dropLast,
            t.length = PLAYERS_PER_TEAM)
        ∧ (∀ t, (create_teams List.reverse [0, 1, 2, 3, 4, 5, 6, 7, 8, 9, 10, 11, (12 : Nat)]).getLast? = some t →
            t.length = if [0, 1, 2, 3, 4, 5, 6, 7, 8, 9, 10, 11, (12 : Nat)].length % 6 = 0 then 6
              else [0, 1, 2, 3, 4, 5, 6, 7, 8, 9, 10, 11, (12 : Nat)].length % 6)
        ∧ ((create_teams List.reverse [0, 1, 2, 3, 4, 5, 6, 7, 8, 9, 10, 11, (12 : Nat)]).flatten).Perm
            [0, 1, 2, 3, 4, 5, 6, 7, 8, 9, 10, 11, 12]
        ∧ ([0, 1, 2, 3, 4, 5, 6, 7, 8, 9, 10, 11, (12 : Nat)] = [] →
            create_teams List.reverse [0, 1, 2, 3, 4, 5, 6, 7, 8, 9, 10, 11, (12 : Nat)] = [])) :=
  ⟨List.reverse_perm _,
    create_teams_spec List.reverse [0, 1, 2, 3, 4, 5, 6, 7, 8, 9, 10, 11, 12]
      (List.reverse_perm _)⟩

/-- C2: with a coordinator caller, `/end` on an inactive session replies
`NoActiveSession` and leaves the stored state unchanged; on an active
session with no participants it replies `EmptyRoster` and leaves the state
unchanged; on an active session with `N ≥ 1` participants it stores
`active = false` and replies with `⌈N/6⌉ = (N+5)/6` teams. -/
theorem end_command_transitions (uid : Int)
    (shuffle : List Player → List Player) (data : BotData)
    (hadm : is_admin uid data = true)
    (hshuf : ∀ l, (shuffle l).Perm l) :
    (data.session.active = false →
        end_command uid shuffle data = (data, .noActiveSession))
    ∧ (data.session.active = true → data.session.participants = [] →
        end_command uid shuffle data = (data, .emptyRoster))
    ∧ (data.session.active = true → data.session.participants ≠ [] →
        (end_command uid shuffle data).1.session.active = false
        ∧ ∃ ts, (end_command uid shuffle data).2 = .teams ts
            ∧ ts.length = (data.session.participants.length + 5) / 6) := by
  refine ⟨?_, ?_, ?_⟩
  · intro hact
    simp [end_command, hadm, hact]
  · intro hact hpart
    simp [end_command, hadm, hact, hpart]
  · intro hact hpart
    refine ⟨by simp [end_command, hadm, hact, hpart], ?_⟩
    refine ⟨create_teams shuffle (build_player_list data), ?_, ?_⟩
    · simp [end_command, hadm, hact, hpart]
    · rw [create_teams_length shuffle _ (hshuf _)]
      simp [build_player_list]

/-- Witness for C2 at `demoOpen` (admin 1, identity shuffle). -/
theorem end_command_transitions_witness :
    is_admin 1 demoOpen = true
    ∧ ((demoOpen.session.active = false →
          end_command 1 (fun l => l) demoOpen = (demoOpen, .noActiveSession))
      ∧ (demoOpen.session.active = true → demoOpen.session.participants = [] →
          end_command 1 (fun l => l) demoOpen = (demoOpen, .emptyRoster))
      ∧ (demoOpen.session.active = true → demoOpen.session.participants ≠ [] →
          (end_command 1 (fun l => l) demoOpen).1.session.active = false
          ∧ ∃ ts, (end_command 1 (fun l => l) demoOpen).2 = .teams ts
              ∧ ts.length = (demoOpen.session.participants.length + 5) / 6)) :=
  ⟨by decide,
    end_command_transitions 1 (fun l => l) demoOpen (by decide)
      (fun l => List.Perm.refl l)⟩

/-- C9: an actor outside the coordinator set invoking `/begin` is denied
(`NotAuthorized` reply) and the entire stored state is returned
unchanged. -/
theorem begin_command_denied (uid chat : Int) (data : BotData)
    (h : is_admin uid data = false) :
    begin_command uid chat data = (data, .notAuthorized) := by
  simp [begin_command, h]

/-- Witness for C9: user 5 is not an admin of `demoOpen`. -/
theorem begin_command_denied_witness :
    is_admin 5 demoOpen = false
    ∧ begin_command 5 7 demoOpen = (demoOpen, .notAuthorized) :=
  ⟨by decide, begin_command_denied 5 7 demoOpen (by decide)⟩

/-- C5: from a state with an empty coordinator set, `/addme` by `a` makes
`a` a coordinator and the set becomes exactly `[a]`; a second `/addme` by
`b ≠ a` changes nothing (set still `[a]`); and `/addme` never changes the
state when the coordinator set is non-empty. -/
theorem addme_bootstrap (a b : Int) (data : BotData)
    (hempty : data.admins = []) (_hab : b ≠ a) :
    is_admin a (addme_command a data).1 = true
    ∧ (addme_command a data).1.admins = [a]
    ∧ (addme_command b (addme_command a data).1).1 = (addme_command a data).1
    ∧ (addme_command b (addme_command a data).1).1.admins = [a]
    ∧ (∀ d : BotData, d.admins ≠ [] → (addme_command b d).1 = d) := by
  have hne : ∀ d : BotData, d.admins ≠ [] → (addme_command b d).1 = d := by
    intro d hd
    have hlen : ¬ d.admins.length = 0 := fun h => hd (List.length_eq_zero.mp h)
    simp only [addme_command, hlen, if_false]
    split <;> rfl
  have h1 : (addme_command a data).1.admins = [a] := by
    simp [addme_command, hempty]
  refine ⟨?_, h1, ?_, ?_, hne⟩
  · simp [is_admin, h1]
  · exact hne _ (by simp [h1])
  · rw [hne _ (by simp [h1]), h1]

/-- Witness for C5 with `a = 1`, `b = 2` from the initial state. -/
theorem addme_bootstrap_witness :
    init_data.admins = [] ∧ (2 : Int) ≠ 1
    ∧ (is_admin 1 (addme_command 1 init_data).1 = true
      ∧ (addme_command 1 init_data).1.admins = [1]
      ∧ (addme_command 2 (addme_command 1 init_data).1).1
          = (addme_command 1 init_data).1
      ∧ (addme_command 2 (addme_command 1 init_data).1).1.admins = [1]
      ∧ (∀ d : BotData, d.admins ≠ [] → (addme_command 2 d).1 = d)) :=
  ⟨rfl, by decide, addme_bootstrap 1 2 init_data rfl (by decide)⟩

/-- C6: on an open session, from the session's own chat, saying `"in"`
twice yields the same participants sequence as saying it once (the second
join answers "already in" without mutating), and saying `"out"` while not
in the participants list leaves the participants sequence unchanged. -/
theorem join_idempotent_leave_absent (uid : Int) (nm nm2 : String)
    (un un2 : Option String) (c : Int) (data : BotData)
    (hopen : data.session.active = true)
    (hscope : data.session.chat_id = some c) :
    ((handle_message uid nm2 un2 c "in"
        (handle_message uid nm un c "in" data).1).1).session.participants
      = ((handle_message uid nm un c "in" data).1).session.participants
    ∧ (uid ∉ data.session.participants →
        ((handle_message uid nm un c "out" data).1).session.participants
          = data.session.participants) := by
  constructor
  · by_cases hmem : uid ∈ data.session.participants
    · simp [handle_message, hopen, hscope, hmem]
    · simp [handle_message, hopen, hscope, hmem]
  · intro hmem
    simp [handle_message, hopen, hscope, hmem]

/-- Witness for C6: user 4 joins twice (and leaves while absent) in chat 7
of `demoOpen`. -/
theorem join_idempotent_leave_absent_witness :
    demoOpen.session.active = true ∧ demoOpen.session.chat_id = some 7
    ∧ (((handle_message 4 "Eve" (some "ev") 7 "in"
          (handle_message 4 "Dan" none 7 "in" demoOpen).1).1).session.participants
        = ((handle_message 4 "Dan" none 7 "in" demoOpen).1).session.participants
      ∧ (4 ∉ demoOpen.session.participants →
          ((handle_message 4 "Dan" none 7 "out" demoOpen).1).session.participants
            = demoOpen.session.participants)) :=
  ⟨rfl, rfl,
    join_idempotent_leave_absent 4 "Dan" "Eve" none (some "ev") 7 demoOpen rfl rfl⟩

/-- C7: while a session is open and scoped to chat `c`, an `"in"` message
arriving from any other chat leaves the whole stored state unchanged (the
handler returns before any mutation). -/
theorem join_scope_isolation (uid : Int) (nm : String) (un : Option String)
    (c cother : Int) (data : BotData)
    (hopen : data.session.active = true)
    (hscope : data.session.chat_id = some c)
    (hne : cother ≠ c) :
    (handle_message uid nm un cother "in" data).1 = data := by
  have h1 : data.session.chat_id ≠ some cother := by
    rw [hscope]
    intro hcc
    exact hne (Option.some.inj hcc).symm
  simp [handle_message, hopen, h1]

/-- Witness for C7: user 2 says `"in"` from chat 9 while `demoOpen` is
scoped to chat 7. -/
theorem join_scope_isolation_witness :
    demoOpen.session.active = true ∧ demoOpen.session.chat_id = some 7
    ∧ (9 : Int) ≠ 7
    ∧ (handle_message 2 "Ann" none 9 "in" demoOpen).1 = demoOpen :=
  ⟨rfl, rfl, by decide,
    join_scope_isolation 2 "Ann" none 7 9 demoOpen rfl rfl (by decide)⟩

/-! ### Frame lemmas: what each handler leaves untouched -/

theorem lookup_append_some {β : Type} (l1 l2 : List (Int × β)) (k : Int)
    (p : β) (h : l1.lookup k = some p) : (l1 ++ l2).lookup k = some p := by
  induction l1 with
  | nil => simp [List.lookup] at h
  | cons hd tl ih =>
    obtain ⟨a, b⟩ := hd
    rw [List.cons_append]
    cases hk : (k == a) <;> simp [List.lookup, hk] at h ⊢
    · exact ih h
    · exact h

theorem addme_command_frame (uid : Int) (d : BotData) :
    (addme_command uid d).1.session = d.session
    ∧ (addme_command uid d).1.players = d.players := by
  unfold addme_command
  repeat' split
  all_goals exact ⟨rfl, rfl⟩

theorem addadmin_command_frame (uid : Int) (rt : Option Int) (d : BotData) :
    (addadmin_command uid rt d).1.session = d.session
    ∧ (addadmin_command uid rt d).1.players = d.players := by
  unfold addadmin_command
  repeat' split
  all_goals exact ⟨rfl, rfl⟩

theorem removeadmin_command_frame (uid : Int) (rt : Option Int)
    (d : BotData) :
    (removeadmin_command uid rt d).1.session = d.session
    ∧ (removeadmin_command uid rt d).1.players = d.players := by
  unfold removeadmin_command
  repeat' split
  all_goals exact ⟨rfl, rfl⟩

theorem begin_command_frame (uid chat : Int) (d : BotData) :
    (begin_command uid chat d).1.players = d.players
    ∧ (begin_command uid chat d).1.admins = d.admins := by
  unfold begin_command
  repeat' split
  all_goals exact ⟨rfl, rfl⟩

theorem end_command_frame_state (uid : Int)
    (shuffle : List Player → List Player) (d : BotData) :
    (end_command uid shuffle d).1.session.participants
        = d.session.participants
    ∧ (end_command uid shuffle d).1.session.chat_id = d.session.chat_id
    ∧ (end_command uid shuffle d).1.players = d.players
    ∧ (end_command uid shuffle d).1.admins = d.admins := by
  unfold end_command
  repeat' split
  all_goals exact ⟨rfl, rfl, rfl, rfl⟩

theorem reset_command_frame (uid : Int) (d : BotData) :
    (reset_command uid d).1.session.chat_id = d.session.chat_id
    ∧ (reset_command uid d).1.players = d.players
    ∧ (reset_command uid d).1.admins = d.admins := by
  unfold reset_command
  repeat' split
  all_goals exact ⟨rfl, rfl, rfl⟩

theorem handle_message_frame (uid : Int) (nm : String) (un : Option String)
    (chat : Int) (txt : String) (d : BotData) :
    (handle_message uid nm un chat txt d).1.session.active = d.session.active
    ∧ (handle_message uid nm un chat txt d).1.session.chat_id
        = d.session.chat_id
    ∧ (handle_message uid nm un chat txt d).1.admins = d.admins := by
  unfold handle_message
  repeat' split
  all_goals exact ⟨rfl, rfl, rfl⟩

theorem handle_message_participants_cases (uid : Int) (nm : String)
    (un : Option String) (chat : Int) (txt : String) (d : BotData) :
    (handle_message uid nm un chat txt d).1.session.participants
        = d.session.participants
    ∨ (uid ∉ d.session.participants
        ∧ (handle_message uid nm un chat txt d).1.session.participants
            = d.session.participants ++ [uid])
    ∨ (handle_message uid nm un chat txt d).1.session.participants
        = d.session.participants.erase uid := by
  unfold handle_message
  repeat' split
  all_goals first
    | exact Or.inl rfl
    | exact Or.inr (Or.inr rfl)
    | exact Or.inr (Or.inl ⟨by assumption, rfl⟩)

/-- C3 counterexample: the code does not clear `chat_id` on close.  After
`/addme`, `/begin` (chat 7), `/reset` — and likewise after a successful
`/end` — the session is closed yet its scope is still bound to chat 7, so
"scope is non-null only while the session is open" is false of a reachable
state. -/
theorem scope_not_cleared_counterexample :
    Reachable traceReset
    ∧ traceReset.session.active = false
    ∧ traceReset.session.chat_id = some 7
    ∧ Reachable traceEnd
    ∧ traceEnd.session.active = false
    ∧ traceEnd.session.chat_id = some 7 :=
  ⟨Reachable.reset 1 (Reachable.begin_ 1 7 (Reachable.addme 1 Reachable.init)),
    by decide, by decide,
    Reachable.end_ 1 (fun l => l)
      (Reachable.msg 2 "Bob" none 7 "in"
        (Reachable.begin_ 1 7 (Reachable.addme 1 Reachable.init))),
    by decide, by decide⟩

/-- C3 (amended): in every reachable state the scope (`chat_id`) is
non-null whenever the session is open; but `/end` and `/reset`, which
close the session, leave the previously bound scope in place (it is only
overwritten by the next `/begin`). -/
theorem scope_invariant (d : BotData) (h : Reachable d) :
    (d.session.active = true → d.session.chat_id ≠ none)
    ∧ (∀ uid shuffle, (end_command uid shuffle d).1.session.chat_id
        = d.session.chat_id)
    ∧ (∀ uid, (reset_command uid d).1.session.chat_id
        = d.session.chat_id) := by
  refine ⟨?_, fun uid shuffle => (end_command_frame_state uid shuffle d).2.1,
    fun uid => (reset_command_frame uid d).1⟩
  induction h with
  | init => intro hact; simp [init_data] at hact
  | addme uid h ih =>
    rw [(addme_command_frame uid _).1]
    exact ih
  | addadmin uid rt h ih =>
    rw [(addadmin_command_frame uid rt _).1]
    exact ih
  | removeadmin uid rt h ih =>
    rw [(removeadmin_command_frame uid rt _).1]
    exact ih
  | begin_ uid chat h ih =>
    unfold begin_command
    split
    · exact ih
    · intro _
      simp
  | end_ uid shuffle h ih =>
    unfold end_command
    repeat' split
    · exact ih
    · exact ih
    · exact ih
    · intro hact
      simp at hact
  | reset uid h ih =>
    unfold reset_command
    split
    · exact ih
    · intro hact
      simp at hact
  | msg uid nm un chat txt h ih =>
    rw [(handle_message_frame uid nm un chat txt _).1,
      (handle_message_frame uid nm un chat txt _).2.1]
    exact ih

/-- Witness for C3 (amended) at the reachable open state `tracePre`. -/
theorem scope_invariant_witness :
    Reachable tracePre
    ∧ ((tracePre.session.active = true → tracePre.session.chat_id ≠ none)
      ∧ (∀ uid shuffle, (end_command uid shuffle tracePre).1.session.chat_id
          = tracePre.session.chat_id)
      ∧ (∀ uid, (reset_command uid tracePre).1.session.chat_id
          = tracePre.session.chat_id)) :=
  ⟨Reachable.msg 2 "Bob" none 7 "in"
      (Reachable.begin_ 1 7 (Reachable.addme 1 Reachable.init)),
    scope_invariant tracePre
      (Reachable.msg 2 "Bob" none 7 "in"
        (Reachable.begin_ 1 7 (Reachable.addme 1 Reachable.init)))⟩

/-- C10: in every reachable state the participants sequence contains no
duplicate identifiers — `"in"` appends only when absent, `"out"` erases,
and `/begin`, `/reset` replace the sequence with `[]`. -/
theorem participants_nodup (d : BotData) (h : Reachable d) :
    d.session.participants.Nodup := by
  induction h with
  | init => simp [init_data]
  | addme uid h ih =>
    rw [(addme_command_frame uid _).1]
    exact ih
  | addadmin uid rt h ih =>
    rw [(addadmin_command_frame uid rt _).1]
    exact ih
  | removeadmin uid rt h ih =>
    rw [(removeadmin_command_frame uid rt _).1]
    exact ih
  | begin_ uid chat h ih =>
    unfold begin_command
    split
    · exact ih
    · simp
  | end_ uid shuffle h ih =>
    rw [(end_command_frame_state uid shuffle _).1]
    exact ih
  | reset uid h ih =>
    unfold reset_command
    split
    · exact ih
    · simp
  | msg uid nm un chat txt h ih =>
    rcases handle_message_participants_cases uid nm un chat txt _ with
      heq | ⟨hmem, heq⟩ | heq
    · rw [heq]
      exact ih
    · rw [heq]
      simp [List.nodup_append, ih, hmem]
    · rw [heq]
      exact ih.erase uid

/-- Witness for C10 at the reachable state `tracePre` (participants
`[2]`). -/
theorem participants_nodup_witness :
    Reachable tracePre ∧ tracePre.session.participants.Nodup :=
  ⟨Reachable.msg 2 "Bob" none 7 "in"
      (Reachable.begin_ 1 7 (Reachable.addme 1 Reachable.init)),
    participants_nodup tracePre
      (Reachable.msg 2 "Bob" none 7 "in"
        (Reachable.begin_ 1 7 (Reachable.addme 1 Reachable.init)))⟩

/-- C4 counterexample: a successful `/end` does not remove the participant
identifiers from the session state.  From the reachable open state
`tracePre` (participant 2), `/end` by admin 1 succeeds (replies with one
team), yet the stored session still holds `participants = [2]`. -/
theorem participants_not_removed_counterexample :
    Reachable traceEnd
    ∧ is_admin 1 tracePre = true
    ∧ tracePre.session.active = true
    ∧ tracePre.session.participants = [2]
    ∧ traceEnd.session.active = false
    ∧ traceEnd.session.participants = [2] :=
  ⟨Reachable.end_ 1 (fun l => l)
      (Reachable.msg 2 "Bob" none 7 "in"
        (Reachable.begin_ 1 7 (Reachable.addme 1 Reachable.init))),
    by decide, by decide, by decide, by decide, by decide⟩

/-- C4 (amended): a successful `/end` by a coordinator on an open session
with non-empty participants stores `active = false` and changes nothing
else: the participant identifiers stay in the session state (they are
cleared only by a later `/begin` or `/reset`), and the player table,
admin list and scope are untouched. -/
theorem end_command_closes_keeps_participants (uid : Int)
    (shuffle : List Player → List Player) (data : BotData)
    (hadm : is_admin uid data = true)
    (hact : data.session.active = true)
    (hpart : data.session.participants ≠ []) :
    (end_command uid shuffle data).1.session.active = false
    ∧ (end_command uid shuffle data).1.session.participants
        = data.session.participants
    ∧ (end_command uid shuffle data).1.session.chat_id
        = data.session.chat_id
    ∧ (end_command uid shuffle data).1.players = data.players
    ∧ (end_command uid shuffle data).1.admins = data.admins := by
  refine ⟨?_, (end_command_frame_state uid shuffle data).1,
    (end_command_frame_state uid shuffle data).2.1,
    (end_command_frame_state uid shuffle data).2.2.1,
    (end_command_frame_state uid shuffle data).2.2.2⟩
  simp [end_command, hadm, hact, hpart]

/-- Witness for C4 (amended) at `demoOpen` with admin 1 and the identity
shuffle. -/
theorem end_command_closes_keeps_participants_witness :
    is_admin 1 demoOpen = true
    ∧ demoOpen.session.active = true
    ∧ demoOpen.session.participants ≠ []
    ∧ ((end_command 1 (fun l => l) demoOpen).1.session.active = false
      ∧ (end_command 1 (fun l => l) demoOpen).1.session.participants
          = demoOpen.session.participants
      ∧ (end_command 1 (fun l => l) demoOpen).1.session.chat_id
          = demoOpen.session.chat_id
      ∧ (end_command 1 (fun l => l) demoOpen).1.players = demoOpen.players
      ∧ (end_command 1 (fun l => l) demoOpen).1.admins = demoOpen.admins) :=
  ⟨by decide, by decide, by decide,
    end_command_closes_keeps_participants 1 (fun l => l) demoOpen
      (by decide) (by decide) (by decide)⟩

/-- C8 counterexample: re-observation does not overwrite the stored actor
record.  User 2 first joins as "Alice" (record created), the admin
re-opens the session, and user 2 joins again as "Bob" with handle
"bobby"; the stored record is still `("Alice", no handle)` — and the
second join did go through (participants `[2]`). -/
theorem player_record_not_overwritten_counterexample :
    Reachable traceRejoin
    ∧ traceRejoin.players = [(2, { name := "Alice", username := none })]
    ∧ traceRejoin.session.participants = [2] :=
  ⟨Reachable.msg 2 "Bob" (some "bobby") 7 "in"
      (Reachable.begin_ 1 7
        (Reachable.msg 2 "Alice" none 7 "in"
          (Reachable.begin_ 1 7 (Reachable.addme 1 Reachable.init)))),
    by decide, by decide⟩

/-- C8 (amended): actor records are created the first time an actor joins
and are never deleted, but a re-observation leaves the stored record
unchanged — the newly observed name/handle are NOT written over the old
ones.  Concretely for the message handler: when a record for the caller
exists, `"in"` leaves the player table exactly as it was; when no record
exists and the join goes through, the new record is appended; and every
existing record survives any message. -/
theorem player_record_law (uid : Int) (nm : String) (un : Option String)
    (c : Int) (data : BotData) :
    ((data.players.lookup uid).isSome →
        (handle_message uid nm un c "in" data).1.players = data.players)
    ∧ (data.players.lookup uid = none → data.session.active = true →
        data.session.chat_id = some c → uid ∉ data.session.participants →
        (handle_message uid nm un c "in" data).1.players
          = data.players ++ [(uid, { name := nm, username := un })])
    ∧ (∀ txt : String, ∀ k : Int, ∀ p : Player,
        data.players.lookup k = some p →
        (handle_message uid nm un c txt data).1.players.lookup k
          = some p) := by
  refine ⟨?_, ?_, ?_⟩
  · intro hsome
    unfold handle_message
    repeat' split
    all_goals simp [hsome]
  · intro hnone hact hscope hmem
    simp [handle_message, hact, hscope, hmem, hnone]
  · intro txt k p hk
    have : (handle_message uid nm un c txt data).1.players = data.players
        ∨ (handle_message uid nm un c txt data).1.players
            = data.players ++ [(uid, { name := nm, username := un })] := by
      unfold handle_message
      repeat' split
      all_goals simp
    rcases this with heq | heq
    · rw [heq]
      exact hk
    · rw [heq]
      exact lookup_append_some _ _ k p hk

/-- Witness for C8 (amended): user 2 (already recorded as "Ann") says
`"in"` as "Anna" in `demoOpen`. -/
theorem player_record_law_witness :
    (demoOpen.players.lookup 2).isSome = true
    ∧ (((demoOpen.players.lookup 2).isSome →
          (handle_message 2 "Anna" (some "anna") 7 "in" demoOpen).1.players
            = demoOpen.players)
      ∧ (demoOpen.players.lookup 2 = none → demoOpen.session.active = true →
          demoOpen.session.chat_id = some 7 →
          2 ∉ demoOpen.session.participants →
          (handle_message 2 "Anna" (some "anna") 7 "in" demoOpen).1.players
            = demoOpen.players
                ++ [(2, { name := "Anna", username := some "anna" })])
      ∧ (∀ txt : String, ∀ k : Int, ∀ p : Player,
          demoOpen.players.lookup k = some p →
          (handle_message 2 "Anna" (some "anna") 7 txt demoOpen).1.players.lookup k
            = some p)) :=
  ⟨by decide, player_record_law 2 "Anna" (some "anna") 7 demoOpen⟩

end Bot
